import Mathlib

/-!
Shallow embedding of the two React components of the repository
(src/src/pages/exam/ExamInterface.jsx and src/src/pages/admin/Questions.jsx),
restricted to the logic the claims are about: the countdown timer, attempt
initialization, answer collection, the submission protocol, question
navigation, and the admin bulk-insert validation.

JavaScript values that flow through the answers map are modelled by JsVal
(numbers, strings and arrays are the shapes the component stores). Absent
object fields are modelled with Option; JavaScript truthiness tests on
strings and numbers are made explicit where the code performs them.
-/

/-- A JavaScript value as stored in the answers map of ExamInterface:
an option index (number), free text (string), or a list of blank fills
(array). -/
inductive JsVal where
  | num (n : Int)
  | str (s : String)
  | arr (l : List JsVal)
deriving Repr

namespace ExamInterface

/-- The fields of a question object that handleSubmit reads:
its id and its type string. -/
structure Question where
  id : String
  type : String
deriving Repr, DecidableEq

/-- The wire-format response unit built by handleSubmit.
essayAnswer is Option because the non-essay branch of the code builds the
object without that field. -/
structure Response where
  questionId : String
  selectedOptions : List JsVal
  essayAnswer : Option JsVal
  timeSpent : Nat
deriving Repr

/-- JS: Array.isArray(answer) ? answer : [answer]  (ExamInterface.jsx:244). -/
def flattenAnswer : JsVal → List JsVal
  | JsVal.arr l => l
  | v => [v]

/-- One response object of the wire format, as built inside handleSubmit
(ExamInterface.jsx:231-248): the question is looked up by id; ESSAY and
SHORT_ANSWER get an empty selectedOptions list and an essayAnswer field;
every other case (including a missing question, where the optional chain
yields undefined) gets the flattened answer and no essayAnswer field. -/
def buildResponse (questions : List Question) (qid : String) (answer : JsVal) : Response :=
  match questions.find? (fun q => q.id == qid) with
  | some q =>
    if q.type == "ESSAY" || q.type == "SHORT_ANSWER" then
      { questionId := qid, selectedOptions := [], essayAnswer := some answer, timeSpent := 0 }
    else
      { questionId := qid, selectedOptions := flattenAnswer answer,
        essayAnswer := none, timeSpent := 0 }
  | none =>
      { questionId := qid, selectedOptions := flattenAnswer answer,
        essayAnswer := none, timeSpent := 0 }

/-- JS: Object.entries(answers).map(...)  (ExamInterface.jsx:231). The answers
map is modelled by its entries list, one pair per answered question id. -/
def buildResponses (answers : List (String × JsVal)) (questions : List Question) :
    List Response :=
  answers.map (fun p => buildResponse questions p.1 p.2)

/-- What one call of handleSubmit does, as observable effects: the error
toasts it emits, whether the window.confirm dialog was shown, and the
network call it makes (attempt id and responses), if any. -/
structure SubmitOutcome where
  toasts : List String
  dialogShown : Bool
  networkCall : Option (String × List Response)
deriving Repr

/-- handleSubmit (ExamInterface.jsx:208-256). With no attempt id it toasts
an error and returns; otherwise it always shows the confirmation dialog
(window.confirm at line 229) and issues the submit network call exactly
when the user confirms. -/
def handleSubmit (attemptId : Option String) (answers : List (String × JsVal))
    (questions : List Question) (userConfirms : Bool) : SubmitOutcome :=
  match attemptId with
  | none => { toasts := ["No active exam attempt"], dialogShown := false, networkCall := none }
  | some aid =>
    if userConfirms then
      { toasts := [], dialogShown := true,
        networkCall := some (aid, buildResponses answers questions) }
    else
      { toasts := [], dialogShown := true, networkCall := none }

/-- The state of the countdown interval of the timer useEffect
(ExamInterface.jsx:184-199): the remaining seconds, whether clearInterval
has run, and how many times the callback invoked handleSubmit. -/
structure TimerState where
  timeLeft : Nat
  cancelled : Bool
  submitCount : Nat
deriving Repr, DecidableEq

/-- One firing of the interval callback (ExamInterface.jsx:187-196): once
cancelled the interval no longer fires; at a value of at most 1 the
interval is cleared, handleSubmit is invoked and the time becomes 0;
otherwise the time decrements by one. -/
def tick (s : TimerState) : TimerState :=
  if s.cancelled then s
  else if s.timeLeft ≤ 1 then
    { timeLeft := 0, cancelled := true, submitCount := s.submitCount + 1 }
  else
    { timeLeft := s.timeLeft - 1, cancelled := false, submitCount := s.submitCount }

/-- k firings of the interval callback. -/
def ticks (s : TimerState) : Nat → TimerState
  | 0 => s
  | k + 1 => tick (ticks s k)

/-- The result of one firing of the interval callback together with the
submission it triggers: the callback body calls the one handleSubmit of the
component (ExamInterface.jsx:191), so the triggered submission is exactly a
handleSubmit outcome. -/
structure TickResult where
  newTimeLeft : Nat
  cancelled : Bool
  submitOutcome : Option SubmitOutcome

/-- One firing of the interval callback with its submission effect
(ExamInterface.jsx:187-196): at a value of at most 1 it clears the interval,
calls handleSubmit — the same function manual submission uses, confirmation
dialog included — and sets the time to 0. -/
def timerTickFull (attemptId : Option String) (answers : List (String × JsVal))
    (questions : List Question) (userConfirms : Bool) (prev : Nat) : TickResult :=
  if prev ≤ 1 then
    { newTimeLeft := 0, cancelled := true,
      submitOutcome := some (handleSubmit attemptId answers questions userConfirms) }
  else
    { newTimeLeft := prev - 1, cancelled := false, submitOutcome := none }

/-- The countdown initialization of startAttemptMutation.onSuccess
(ExamInterface.jsx:80): setTimeLeft(duration * 60 || 3600). An absent
duration gives NaN * 60 = NaN, which is falsy; a present duration whose
product with 60 is 0 is also falsy; both fall back to 3600. -/
def initialTimeLeft (duration : Option Nat) : Nat :=
  match duration with
  | some d => if d * 60 = 0 then 3600 else d * 60
  | none => 3600

/-- The attemptsInfo object the exam fetch returns (canTakeExam is supplied
by the server; the component only reads it). -/
structure AttemptsInfo where
  attemptsUsed : Nat
  attemptsAllowed : Nat
  canTakeExam : Bool
deriving Repr, DecidableEq

/-- The action taken by the attempt-start useEffect
(ExamInterface.jsx:162-182). -/
inductive StartAction where
  | nothing
  | exceeded (toast : String) (redirectPath : String) (delayMs : Nat)
  | startAttempt (examId : String)
deriving Repr, DecidableEq

/-- The attempt-start useEffect body (ExamInterface.jsx:162-182): it acts
only when exam.id is truthy and no attempt id is set; if attemptsInfo is
present and canTakeExam is false it toasts, schedules a redirect to
/student/tests after 3000 ms and returns without starting an attempt;
otherwise it issues the start-attempt mutation. -/
def startEffect (examId : Option String) (attemptId : Option String)
    (attemptsInfo : Option AttemptsInfo) : StartAction :=
  match examId, attemptId with
  | some eid, none =>
    if eid = "" then StartAction.nothing
    else
      match attemptsInfo with
      | some info =>
        if info.canTakeExam then StartAction.startAttempt eid
        else
          StartAction.exceeded
            ("You have used all " ++ toString info.attemptsUsed ++ "/" ++
             toString info.attemptsAllowed ++
             " attempts for this exam. No more attempts allowed.")
            "/student/tests" 3000
      | none => StartAction.startAttempt eid
  | _, _ => StartAction.nothing

/-- The Previous button (ExamInterface.jsx:981):
setCurrentQuestion(prev => Math.max(0, prev - 1)). -/
def prevClick (current : Int) : Int := max 0 (current - 1)

/-- The Next button (ExamInterface.jsx:1036):
setCurrentQuestion(prev => Math.min(questions.length - 1, prev + 1)). -/
def nextClick (len : Int) (current : Int) : Int := min (len - 1) (current + 1)

/-- A button of the jump-to-question grid (ExamInterface.jsx:1076-1103):
the button rendered for the question at position index sets
currentQuestion to exactly that index. -/
def jumpClick (index : Int) : Int := index

/-- A network request the exam page can issue; answer handlers emit a list
of these (always empty, recorded in the embedding to state the
no-network-call parts of the claims). -/
inductive ApiCall where
  | startAttempt (examId : String)
  | submitAttempt (attemptId : String) (responses : List Response)

/-- handleAnswerSelect (ExamInterface.jsx:201-206): a pure spread-update of
the answers object at the selected question id; the body contains no API
call. The answers object is modelled as a partial map from question id to
value. -/
def handleAnswerSelect (answers : String → Option JsVal) (questionId : String)
    (answerIndex : JsVal) : (String → Option JsVal) × List ApiCall :=
  (fun k => if k = questionId then some answerIndex else answers k, [])

/-- JS array index assignment arr[i] = v on a list model: positions past the
current length are filled with empty strings (undefined slots render as
empty strings in the component). -/
def listSetPad (l : List JsVal) (i : Nat) (v : JsVal) : List JsVal :=
  match l, i with
  | [], 0 => [v]
  | [], n + 1 => JsVal.str "" :: listSetPad [] n v
  | _ :: xs, 0 => v :: xs
  | x :: xs, n + 1 => x :: listSetPad xs n v

/-- The fill-in-the-blank input onChange (ExamInterface.jsx:887-894): copy
the answers object, install an empty array when the entry is falsy, set the
blank at the given position, store the result. A stored non-array value
cannot occur for a fill-in-the-blank question (only this handler writes its
entry), so the falsy branch covers the remaining cases. The body contains
no API call. -/
def blankOnChange (answers : String → Option JsVal) (qid : String) (index : Nat)
    (value : String) : (String → Option JsVal) × List ApiCall :=
  let base : List JsVal :=
    match answers qid with
    | some (JsVal.arr l) => l
    | _ => []
  (fun k => if k = qid then some (JsVal.arr (listSetPad base index (JsVal.str value)))
            else answers k, [])

/-- The outcome of the callback scheduled by submitAttemptMutation.onSuccess
(ExamInterface.jsx:137-140): either a navigation to a path, or a thrown
exception. -/
inductive NavResult where
  | navigate (path : String)
  | thrown (err : String)
deriving Repr, DecidableEq

/-- The post-submit setTimeout callback (ExamInterface.jsx:138-139):
const attemptId = data.data?.data?.attempt?.id || attemptId. The inner
const shadows the state variable of the same name for the whole block, so
the right-hand occurrence resolves to the still-uninitialized inner binding:
when the server id is truthy the disjunction short-circuits and navigation
uses the server id; when it is falsy (absent or the empty string) evaluating
the right operand hits the temporal dead zone and throws a ReferenceError.
The state attempt id is never read, which is why the second argument is
unused. -/
def postSubmitNavigate (serverAttemptId : Option String)
    (_stateAttemptId : Option String) : NavResult :=
  match serverAttemptId with
  | some s => if s = "" then NavResult.thrown "ReferenceError" else
      NavResult.navigate ("/exam/results/" ++ s)
  | none => NavResult.thrown "ReferenceError"

/-- The fixed delay in milliseconds of the post-submit navigation timeout
(ExamInterface.jsx:140) and of the attempts-exceeded redirect
(ExamInterface.jsx:175). -/
def postSubmitDelayMs : Nat := 3000

end ExamInterface

namespace Questions

/-- A raw option value inside a bulk-insert entry: either a bare string or
an object with optional text and isCorrect fields (the two shapes the
normalization at Questions.jsx:236-239 distinguishes). -/
inductive OptJson where
  | str (s : String)
  | obj (text : Option String) (isCorrect : Option Bool)
deriving Repr, DecidableEq

/-- The text field of a normalized option: option.text || option either
keeps the text string or falls back to the whole original option value. -/
inductive OptTextVal where
  | str (s : String)
  | orig (o : OptJson)
deriving Repr, DecidableEq

/-- A normalized option pair as built at Questions.jsx:236-239. -/
structure NormOption where
  text : OptTextVal
  isCorrect : Bool
deriving Repr, DecidableEq

/-- The truthy value of option.text: a bare string has no text property
(undefined, falsy) and an empty text string is falsy as well. -/
def optTextTruthy : OptJson → Option String
  | OptJson.str _ => none
  | OptJson.obj t _ =>
    match t with
    | some s => if s = "" then none else some s
    | none => none

/-- Questions.jsx:236-239: option text is option.text || option, and
isCorrect is option.isCorrect || false. -/
def normalizeOption (o : OptJson) : NormOption :=
  { text := match optTextTruthy o with
            | some s => OptTextVal.str s
            | none => OptTextVal.orig o,
    isCorrect := match o with
            | OptJson.str _ => false
            | OptJson.obj _ c => c.getD false }

/-- The fields of one parsed bulk-insert entry that handleBulkInsert reads;
Option none models an absent field. -/
structure BulkEntry where
  text : Option String
  examCategoryId : Option String
  type : Option String
  difficulty : Option String
  marks : Option Nat
  timeLimit : Option Nat
  options : Option (List OptJson)
deriving Repr, DecidableEq

/-- JS falsiness of an optional string field: absent or the empty string. -/
def strFalsy : Option String → Bool
  | none => true
  | some s => s = ""

/-- JS v || dflt on an optional number field: absent or 0 yields the
default. -/
def jsOrNat (v : Option Nat) (dflt : Nat) : Nat :=
  match v with
  | none => dflt
  | some n => if n = 0 then dflt else n

/-- JS v || dflt on an optional string field: absent or empty yields the
default. -/
def jsOrStr (v : Option String) (dflt : String) : String :=
  match v with
  | none => dflt
  | some s => if s = "" then dflt else s

/-- Questions.jsx:235 and 249: the two question types whose options are
kept. -/
def isChoiceType (t : String) : Bool :=
  t == "MULTIPLE_CHOICE" || t == "FILL_IN_THE_BLANK"

/-- The object built per validated entry (Questions.jsx:242-250). -/
structure OutQuestion where
  text : String
  examCategoryId : String
  difficulty : String
  type : String
  marks : Nat
  timeLimit : Nat
  options : List NormOption
deriving Repr, DecidableEq

/-- A bulk entry is missing a required field exactly when text,
examCategoryId or type is falsy (Questions.jsx:230). -/
def entryInvalid (q : BulkEntry) : Bool :=
  strFalsy q.text || strFalsy q.examCategoryId || strFalsy q.type

/-- Validation of one entry (Questions.jsx:229-251): throw on a falsy
required field, otherwise build the output object with defaults
difficulty EASY, marks 1, timeLimit 60, and options kept (normalized) only
for the two choice types — q.options || [] means an absent options field
silently becomes the empty list, it is never rejected. -/
def validateEntry (index : Nat) (q : BulkEntry) : Except String OutQuestion :=
  if entryInvalid q then
    Except.error ("Question " ++ toString (index + 1) ++
      " is missing required fields (text, examCategoryId, type)")
  else
    Except.ok
      { text := q.text.getD "",
        examCategoryId := q.examCategoryId.getD "",
        difficulty := jsOrStr q.difficulty "EASY",
        type := q.type.getD "",
        marks := jsOrNat q.marks 1,
        timeLimit := jsOrNat q.timeLimit 60,
        options := if isChoiceType (q.type.getD "") then
                     (q.options.getD []).map normalizeOption
                   else [] }

/-- questions.map with a throwing body (Questions.jsx:229-251): the first
entry that fails validation aborts the whole map with its error. -/
def validateAll (i : Nat) : List BulkEntry → Except String (List OutQuestion)
  | [] => Except.ok []
  | q :: qs =>
    match validateEntry i q with
    | Except.error e => Except.error e
    | Except.ok out =>
      match validateAll (i + 1) qs with
      | Except.error e => Except.error e
      | Except.ok outs => Except.ok (out :: outs)

/-- The parse stage of handleBulkInsert: JSON.parse either throws (with the
parser message), yields a non-array value, or yields an array of entries. -/
inductive BulkInput where
  | malformed (parseMsg : String)
  | notArray
  | array (entries : List BulkEntry)

/-- The observable result of handleBulkInsert: an error toast and no network
call, or one bulkCreate network call carrying the whole validated batch. -/
inductive BulkResult where
  | errorToast (msg : String)
  | submit (batch : List OutQuestion)
deriving Repr, DecidableEq

/-- handleBulkInsert (Questions.jsx:220-257): a parse failure or a
validation throw lands in the catch block, which toasts and returns without
calling the mutation; a non-array parse toasts and returns; only a fully
validated batch reaches bulkInsertMutation.mutate. -/
def handleBulkInsert : BulkInput → BulkResult
  | BulkInput.malformed parseMsg =>
      BulkResult.errorToast ("Invalid JSON format: " ++ parseMsg)
  | BulkInput.notArray =>
      BulkResult.errorToast "JSON data must be an array of questions"
  | BulkInput.array qs =>
    match validateAll 0 qs with
    | Except.error e => BulkResult.errorToast ("Invalid JSON format: " ++ e)
    | Except.ok outs => BulkResult.submit outs

end Questions

namespace ExamInterface

/-- While still counting, k firings of the interval take the state from D
to D - k without cancelling and without any submission. -/
theorem ticks_running (D : Nat) :
    ∀ k, k < D → ticks ⟨D, false, 0⟩ k = ⟨D - k, false, 0⟩ := by
  intro k
  induction k with
  | zero => intro _; simp [ticks]
  | succ n ih =>
    intro h
    have hn : n < D := Nat.lt_of_succ_lt h
    have h2 : ¬ (D - n ≤ 1) := by omega
    have harg : D - n - 1 = D - (n + 1) := by omega
    simp [ticks, ih hn, tick, h2, harg]

/-- The D-th firing clears the interval, sets the time to 0 and performs
the single automatic submission. -/
theorem ticks_final (D : Nat) (hD : 0 < D) :
    ticks ⟨D, false, 0⟩ D = ⟨0, true, 1⟩ := by
  obtain ⟨n, rfl⟩ : ∃ n, D = n + 1 := ⟨D - 1, by omega⟩
  have h := ticks_running (n + 1) n (by omega)
  have hs : n + 1 - n = 1 := by omega
  rw [hs] at h
  simp [ticks, h, tick]

/-- Once the interval is cancelled the state is absorbing: no further
submission is ever triggered. -/
theorem ticks_after (D : Nat) (hD : 0 < D) :
    ∀ m, ticks ⟨D, false, 0⟩ (D + m) = ⟨0, true, 1⟩ := by
  intro m
  induction m with
  | zero => simpa using ticks_final D hD
  | succ n ih =>
    have hstep : D + (n + 1) = (D + n) + 1 := rfl
    rw [hstep]
    simp [ticks, ih, tick]

/-- C2: for every remaining duration D > 0 established at attempt start,
the countdown decrements by exactly 1 each tick, reaches exactly 0 after D
ticks (never dropping below 0, which the boundary branch of the callback
enforces by returning 0), and on reaching 0 the interval is cancelled and
exactly one automatic submission is triggered — even hypothetical further
firings leave the submission count at one. -/
theorem C2_countdown (D : Nat) (hD : 0 < D) :
    (∀ k, k < D → ticks ⟨D, false, 0⟩ k = ⟨D - k, false, 0⟩) ∧
    (∀ k, k < D →
      (ticks ⟨D, false, 0⟩ (k + 1)).timeLeft + 1 = (ticks ⟨D, false, 0⟩ k).timeLeft) ∧
    ticks ⟨D, false, 0⟩ D = ⟨0, true, 1⟩ ∧
    (∀ m, ticks ⟨D, false, 0⟩ (D + m) = ⟨0, true, 1⟩) := by
  refine ⟨ticks_running D, ?_, ticks_final D hD, ticks_after D hD⟩
  intro k hk
  rcases Nat.lt_or_ge (k + 1) D with h | h
  · rw [ticks_running D (k + 1) h, ticks_running D k hk]
    dsimp
    omega
  · have hkD : k + 1 = D := by omega
    rw [hkD, ticks_final D hD, ticks_running D k hk]
    dsimp
    omega

/-- Witness for C2 at D = 3: three ticks end at time 0, cancelled, with
exactly one submission. -/
theorem C2_countdown_witness :
    0 < 3 ∧ ticks ⟨3, false, 0⟩ 3 = ⟨0, true, 1⟩ :=
  ⟨by decide, (C2_countdown 3 (by decide)).2.2.1⟩

/-- C6: whenever the fetched exam reports canTakeExam false, the
attempt-start effect issues no start-attempt request and instead enters the
exceeded state, scheduling a redirect to the exams landing page
(/student/tests) after the fixed 3000 ms delay. -/
theorem C6_attempts_exceeded (eid : String) (heid : eid ≠ "")
    (info : AttemptsInfo) (hcan : info.canTakeExam = false) :
    startEffect (some eid) none (some info) =
      StartAction.exceeded
        ("You have used all " ++ toString info.attemptsUsed ++ "/" ++
         toString info.attemptsAllowed ++
         " attempts for this exam. No more attempts allowed.")
        "/student/tests" 3000 ∧
    ∀ e, startEffect (some eid) none (some info) ≠ StartAction.startAttempt e := by
  constructor
  · simp [startEffect, heid, hcan]
  · intro e
    simp [startEffect, heid, hcan]

/-- Witness for C6 with the 3/3 attempts example from the spec. -/
theorem C6_attempts_exceeded_witness :
    startEffect (some "exam1") none (some ⟨3, 3, false⟩) =
      StartAction.exceeded
        "You have used all 3/3 attempts for this exam. No more attempts allowed."
        "/student/tests" 3000 :=
  (C6_attempts_exceeded "exam1" (by decide) ⟨3, 3, false⟩ rfl).1

/-- C8: for a non-empty question list, every navigation operation keeps the
current index inside [0, length - 1]: Previous clamps at 0, Next clamps at
length - 1, and each grid button jumps to the index of an existing
question. -/
theorem C8_navigation_bounds (len current : Int) (hlen : 0 < len)
    (h0 : 0 ≤ current) (h1 : current ≤ len - 1) :
    (0 ≤ prevClick current ∧ prevClick current ≤ len - 1) ∧
    (0 ≤ nextClick len current ∧ nextClick len current ≤ len - 1) ∧
    (∀ i : Int, 0 ≤ i → i < len → 0 ≤ jumpClick i ∧ jumpClick i ≤ len - 1) := by
  unfold prevClick nextClick jumpClick
  refine ⟨⟨?_, ?_⟩, ⟨?_, ?_⟩, ?_⟩
  · omega
  · omega
  · omega
  · omega
  · intro i hi hil
    omega

/-- Witness for C8 at length 5, current index 0. -/
theorem C8_navigation_bounds_witness :
    (0 ≤ prevClick 0 ∧ prevClick 0 ≤ 5 - 1) ∧
    (0 ≤ nextClick 5 0 ∧ nextClick 5 0 ≤ 5 - 1) :=
  ⟨(C8_navigation_bounds 5 0 (by decide) (by decide) (by decide)).1,
   (C8_navigation_bounds 5 0 (by decide) (by decide) (by decide)).2.1⟩

/-- C9: recording an answer — by option click or by typing in a blank —
changes only the answers-map entry of that question id, leaves the entry of
every other question unchanged, and emits no network call. -/
theorem C9_answer_frame (answers : String → Option JsVal) (qid k : String)
    (v : JsVal) (index : Nat) (s : String) (hne : k ≠ qid) :
    (handleAnswerSelect answers qid v).1 k = answers k ∧
    (handleAnswerSelect answers qid v).2 = [] ∧
    (blankOnChange answers qid index s).1 k = answers k ∧
    (blankOnChange answers qid index s).2 = [] := by
  refine ⟨?_, rfl, ?_, rfl⟩
  · simp [handleAnswerSelect, hne]
  · simp [blankOnChange, hne]

/-- Witness for C9: updating question q1 leaves the stored answer of q2
untouched. -/
theorem C9_answer_frame_witness :
    ("q2" : String) ≠ "q1" ∧
    (handleAnswerSelect (fun k => if k = "q2" then some (JsVal.num 7) else none)
        "q1" (JsVal.num 0)).1 "q2" = some (JsVal.num 7) ∧
    (blankOnChange (fun k => if k = "q2" then some (JsVal.num 7) else none)
        "q1" 0 "ans").1 "q2" = some (JsVal.num 7) := by
  have h := C9_answer_frame (fun k => if k = "q2" then some (JsVal.num 7) else none)
    "q1" "q2" (JsVal.num 0) 0 "ans" (by decide)
  refine ⟨by decide, ?_, ?_⟩
  · rw [h.1]; rfl
  · rw [h.2.2.1]; rfl

/-- Every branch of buildResponse keys the response by the answered
question id. -/
theorem buildResponse_questionId (questions : List Question) (qid : String) (a : JsVal) :
    (buildResponse questions qid a).questionId = qid := by
  unfold buildResponse
  split
  · split <;> rfl
  · rfl

/-- The submitted response list carries exactly the answered question ids,
in order. -/
theorem buildResponses_ids (answers : List (String × JsVal)) (questions : List Question) :
    (buildResponses answers questions).map Response.questionId = answers.map Prod.fst := by
  induction answers with
  | nil => rfl
  | cons p ps ih =>
    simp only [buildResponses, List.map_cons] at ih ⊢
    rw [buildResponse_questionId, ih]

/-- C4: the submitted responses list contains exactly one entry per
answered question (its ids are exactly the keys of the answers map) and no
entry for an unanswered question; an answer to an ESSAY or SHORT_ANSWER
question is sent as selectedOptions [], an essayAnswer and timeSpent 0,
and an answer to any other question type as the answer flattened into
selectedOptions, timeSpent 0 and no essayAnswer field. -/
theorem C4_wire_format (answers : List (String × JsVal)) (questions : List Question)
    (q : Question) (qid : String) (a : JsVal)
    (hmem : (qid, a) ∈ answers)
    (hfind : questions.find? (fun x => x.id == qid) = some q) :
    (buildResponses answers questions).map Response.questionId = answers.map Prod.fst ∧
    ((q.type = "ESSAY" ∨ q.type = "SHORT_ANSWER") →
      buildResponse questions qid a =
        { questionId := qid, selectedOptions := [], essayAnswer := some a,
          timeSpent := 0 }) ∧
    ((q.type ≠ "ESSAY" ∧ q.type ≠ "SHORT_ANSWER") →
      buildResponse questions qid a =
        { questionId := qid, selectedOptions := flattenAnswer a,
          essayAnswer := none, timeSpent := 0 }) ∧
    buildResponse questions qid a ∈ buildResponses answers questions ∧
    (∀ qid2 : String, (∀ p ∈ answers, p.1 ≠ qid2) →
      ∀ r ∈ buildResponses answers questions, r.questionId ≠ qid2) := by
  refine ⟨buildResponses_ids answers questions, ?_, ?_, ?_, ?_⟩
  · intro ht
    rcases ht with h | h <;> simp [buildResponse, hfind, h]
  · intro ⟨h1, h2⟩
    have hcond : (q.type == "ESSAY" || q.type == "SHORT_ANSWER") = false := by
      simp [h1, h2]
    simp [buildResponse, hfind, hcond]
  · simpa [buildResponses] using
      List.mem_map_of_mem (fun p => buildResponse questions p.1 p.2) hmem
  · intro qid2 hq r hr
    simp only [buildResponses, List.mem_map] at hr
    obtain ⟨p, hp, rfl⟩ := hr
    rw [buildResponse_questionId]
    exact hq p hp

/-- Witness for C4 with the example from the spec: answers = q1 mapped to
option index 2, questions q1 (MULTIPLE_CHOICE) and q2 (ESSAY); the payload
holds exactly one response, for q1, with selectedOptions [2] and no
essayAnswer. -/
theorem C4_wire_format_witness :
    (buildResponses [("q1", JsVal.num 2)]
        [⟨"q1", "MULTIPLE_CHOICE"⟩, ⟨"q2", "ESSAY"⟩]).map Response.questionId = ["q1"] ∧
    buildResponse [⟨"q1", "MULTIPLE_CHOICE"⟩, ⟨"q2", "ESSAY"⟩] "q1" (JsVal.num 2) =
      { questionId := "q1", selectedOptions := [JsVal.num 2],
        essayAnswer := none, timeSpent := 0 } := by
  have h := C4_wire_format [("q1", JsVal.num 2)]
    [⟨"q1", "MULTIPLE_CHOICE"⟩, ⟨"q2", "ESSAY"⟩]
    ⟨"q1", "MULTIPLE_CHOICE"⟩ "q1" (JsVal.num 2)
    (List.mem_singleton.mpr rfl) rfl
  exact ⟨h.1, h.2.2.1 (by decide)⟩

/-- C1 counterexample: at timer expiry (remaining time 1, active attempt
a1) the interval callback invokes handleSubmit, whose outcome shows the
confirmation dialog; with the confirmation declined no network call is
made. Time-expiry submission therefore neither bypasses the dialog nor is
unconditional. -/
theorem C1_counterexample :
    (timerTickFull (some "a1") [("q1", JsVal.num 0)] [] false 1).submitOutcome =
      some { toasts := [], dialogShown := true, networkCall := none } ∧
    ¬ (handleSubmit (some "a1") [("q1", JsVal.num 0)] [] false).dialogShown = false ∧
    (handleSubmit (some "a1") [("q1", JsVal.num 0)] [] false).networkCall = none :=
  ⟨rfl, by decide, rfl⟩

/-- C1 amended: submission triggered by timer expiry invokes the very
handleSubmit that manual submission uses: with an active attempt id it
shows the confirmation summary and proceeds to the network call exactly on
affirmative user confirmation — automatic and manual submission behave
identically, there is no bypass asymmetry. -/
theorem C1_amended (aid : String) (answers : List (String × JsVal))
    (questions : List Question) (confirms : Bool) (prev : Nat) (hprev : prev ≤ 1) :
    (timerTickFull (some aid) answers questions confirms prev).submitOutcome =
      some (handleSubmit (some aid) answers questions confirms) ∧
    (timerTickFull (some aid) answers questions confirms prev).cancelled = true ∧
    (handleSubmit (some aid) answers questions confirms).dialogShown = true ∧
    (handleSubmit (some aid) answers questions confirms).networkCall =
      (if confirms then some (aid, buildResponses answers questions) else none) := by
  unfold timerTickFull handleSubmit
  cases confirms <;> simp [hprev]

/-- Witness for C1 amended: at expiry with confirmation granted, the
triggered submission is the manual handleSubmit outcome and the network
call is issued. -/
theorem C1_amended_witness :
    (timerTickFull (some "a1") [] [] true 1).submitOutcome =
      some (handleSubmit (some "a1") [] [] true) ∧
    (handleSubmit (some "a1") [] [] true).networkCall = some ("a1", []) :=
  ⟨(C1_amended "a1" [] [] true 1 (by decide)).1,
   (C1_amended "a1" [] [] true 1 (by decide)).2.2.2⟩

/-- C3 counterexample: a successful start-attempt response carrying
duration 0 initializes the countdown to 3600, not to 0 * 60 = 0; the
fallback is triggered by falsiness of the product, not exactly by absence
of the field. -/
theorem C3_counterexample :
    initialTimeLeft (some 0) = 3600 ∧ initialTimeLeft (some 0) ≠ 0 * 60 := by
  constructor <;> decide

/-- C3 amended: the countdown is initialized to duration * 60 for every
present nonzero duration, and to 3600 when the duration field is absent or
its value is 0 (a falsy product falls back to the default). -/
theorem C3_amended (d : Nat) (hd : 0 < d) :
    initialTimeLeft (some d) = d * 60 ∧
    initialTimeLeft none = 3600 ∧
    initialTimeLeft (some 0) = 3600 := by
  refine ⟨?_, rfl, rfl⟩
  unfold initialTimeLeft
  have hz : ¬ (d * 60 = 0) := by omega
  simp [hz]

/-- Witness for C3 amended at duration 90 minutes. -/
theorem C3_amended_witness :
    initialTimeLeft (some 90) = 90 * 60 :=
  (C3_amended 90 (by decide)).1

/-- C10 counterexample: a response whose attempt id is the non-null empty
string does not navigate to the results route — the falsy server id makes
the callback read the shadowing const in its temporal dead zone, throwing a
ReferenceError instead of navigating. -/
theorem C10_counterexample :
    postSubmitNavigate (some "") (some "stateId") = NavResult.thrown "ReferenceError" ∧
    postSubmitNavigate (some "") (some "stateId") ≠
      NavResult.navigate ("/exam/results/" ++ "") := by
  constructor <;> decide

/-- C10 amended: for every successful submission whose response carries a
truthy (non-empty) attempt id, the scheduled post-submit navigation targets
the results route of that server-returned id, and is independent of the
attempt id held in component state before submission. -/
theorem C10_amended (s : String) (hs : s ≠ "") (st st2 : Option String) :
    postSubmitNavigate (some s) st = NavResult.navigate ("/exam/results/" ++ s) ∧
    postSubmitNavigate (some s) st = postSubmitNavigate (some s) st2 := by
  unfold postSubmitNavigate
  simp [hs]

/-- Witness for C10 amended: server id att42, stale state id oldAttempt. -/
theorem C10_amended_witness :
    postSubmitNavigate (some "att42") (some "oldAttempt") =
      NavResult.navigate "/exam/results/att42" :=
  (C10_amended "att42" (by decide) (some "oldAttempt") none).1

end ExamInterface

namespace Questions

/-- When every entry before the offending one is valid, the validation of
the whole list aborts with the error naming the position of the offending
entry (1-based). -/
theorem validateAll_first_invalid (q : BulkEntry) (post : List BulkEntry)
    (hbad : entryInvalid q = true) :
    ∀ (pre : List BulkEntry) (i : Nat), (∀ p ∈ pre, entryInvalid p = false) →
    validateAll i (pre ++ q :: post) =
      Except.error ("Question " ++ toString (i + pre.length + 1) ++
        " is missing required fields (text, examCategoryId, type)") := by
  intro pre
  induction pre with
  | nil =>
    intro i _
    simp [validateAll, validateEntry, hbad]
  | cons p ps ih =>
    intro i hpre
    have hp : entryInvalid p = false := hpre p (List.mem_cons_self p ps)
    have hps : ∀ r ∈ ps, entryInvalid r = false :=
      fun r hr => hpre r (List.mem_cons_of_mem p hr)
    have htail := ih (i + 1) hps
    have harg : i + 1 + ps.length + 1 = i + (p :: ps).length + 1 := by
      simp [List.length_cons]
      omega
    rw [harg] at htail
    simp [validateAll, validateEntry, hp, htail]

/-- Any invalid entry anywhere in the list makes the validation of the
whole list abort with some error. -/
theorem validateAll_error_of_mem (qs : List BulkEntry)
    (h : ∃ r ∈ qs, entryInvalid r = true) :
    ∀ i, ∃ e, validateAll i qs = Except.error e := by
  induction qs with
  | nil =>
    intro i
    rcases h with ⟨r, hr, _⟩
    exact absurd hr (List.not_mem_nil r)
  | cons p ps ih =>
    intro i
    by_cases hp : entryInvalid p = true
    · refine ⟨"Question " ++ toString (i + 1) ++
        " is missing required fields (text, examCategoryId, type)", ?_⟩
      simp [validateAll, validateEntry, hp]
    · have hpf : entryInvalid p = false := by
        cases hv : entryInvalid p
        · rfl
        · exact absurd hv hp
      rcases h with ⟨r, hr, hbad⟩
      rcases List.mem_cons.mp hr with rfl | hr2
      · exact absurd hbad hp
      · obtain ⟨e, he⟩ := ih ⟨r, hr2, hbad⟩ (i + 1)
        exact ⟨e, by simp [validateAll, validateEntry, hpf, he]⟩

/-- C5: a malformed bulk-insert JSON, a non-array value, or any entry with
a falsy text, examCategoryId or type rejects the entire batch client-side:
the handler produces only an error toast — identifying position i + 1 for
the first offending entry at position i — and never reaches the network
call; no partial batch is ever submitted. -/
theorem C5_bulk_reject (parseMsg : String) (pre post : List BulkEntry) (q : BulkEntry)
    (hpre : ∀ p ∈ pre, entryInvalid p = false) (hbad : entryInvalid q = true) :
    handleBulkInsert (BulkInput.malformed parseMsg) =
      BulkResult.errorToast ("Invalid JSON format: " ++ parseMsg) ∧
    handleBulkInsert BulkInput.notArray =
      BulkResult.errorToast "JSON data must be an array of questions" ∧
    handleBulkInsert (BulkInput.array (pre ++ q :: post)) =
      BulkResult.errorToast ("Invalid JSON format: " ++
        ("Question " ++ toString (pre.length + 1) ++
         " is missing required fields (text, examCategoryId, type)")) ∧
    (∀ batch, handleBulkInsert (BulkInput.array (pre ++ q :: post)) ≠
      BulkResult.submit batch) ∧
    (∀ qs : List BulkEntry, (∃ r ∈ qs, entryInvalid r = true) →
      ∀ batch, handleBulkInsert (BulkInput.array qs) ≠ BulkResult.submit batch) := by
  have hv := validateAll_first_invalid q post hbad pre 0 hpre
  have harg : 0 + pre.length + 1 = pre.length + 1 := by omega
  rw [harg] at hv
  refine ⟨rfl, rfl, ?_, ?_, ?_⟩
  · simp [handleBulkInsert, hv]
  · intro batch
    simp [handleBulkInsert, hv]
  · intro qs hqs batch
    obtain ⟨e, he⟩ := validateAll_error_of_mem qs hqs 0
    simp [handleBulkInsert, he]

/-- Witness for C5 with the example from the spec: the single entry with
only a type field is rejected with an error naming Question 1, and the
result is an error toast, not a submission. -/
theorem C5_bulk_reject_witness :
    handleBulkInsert (BulkInput.array
      [⟨none, none, some "MULTIPLE_CHOICE", none, none, none, none⟩]) =
      BulkResult.errorToast
        "Invalid JSON format: Question 1 is missing required fields (text, examCategoryId, type)" := by
  have h := C5_bulk_reject "unexpected token" [] []
    ⟨none, none, some "MULTIPLE_CHOICE", none, none, none, none⟩
    (by intro p hp; exact absurd hp (List.not_mem_nil p)) (by decide)
  exact h.2.2.1

/-- C7 counterexample: a MULTIPLE_CHOICE entry with no options field at all
is not rejected — it passes validation and the whole batch is submitted
with an empty options list, so the options list is not required. -/
theorem C7_counterexample :
    handleBulkInsert (BulkInput.array
      [⟨some "Q1", some "cat1", some "MULTIPLE_CHOICE", none, none, none, none⟩]) =
      BulkResult.submit [⟨"Q1", "cat1", "EASY", "MULTIPLE_CHOICE", 1, 60, []⟩] := by
  decide

/-- C7 amended: every entry that passes validation is submitted with
difficulty defaulting to EASY, marks to 1 and timeLimit to 60 when those
fields are absent; for MULTIPLE_CHOICE and FILL_IN_THE_BLANK entries the
options list is optional — when present each option is normalized to a
text/isCorrect pair with isCorrect defaulting to false, and when absent the
entry is submitted with an empty options list; entries of every other type
are submitted with an empty options list. -/
theorem C7_amended (i : Nat) (q : BulkEntry) (h : entryInvalid q = false) :
    ∃ out : OutQuestion, validateEntry i q = Except.ok out ∧
      (q.difficulty = none → out.difficulty = "EASY") ∧
      (q.marks = none → out.marks = 1) ∧
      (q.timeLimit = none → out.timeLimit = 60) ∧
      (isChoiceType (q.type.getD "") = true →
        out.options = (q.options.getD []).map normalizeOption) ∧
      (isChoiceType (q.type.getD "") = false → out.options = []) ∧
      (∀ s, (normalizeOption (OptJson.str s)).isCorrect = false) ∧
      (∀ t, (normalizeOption (OptJson.obj t none)).isCorrect = false) := by
  have hv : validateEntry i q = Except.ok
      { text := q.text.getD "", examCategoryId := q.examCategoryId.getD "",
        difficulty := jsOrStr q.difficulty "EASY", type := q.type.getD "",
        marks := jsOrNat q.marks 1, timeLimit := jsOrNat q.timeLimit 60,
        options := if isChoiceType (q.type.getD "") then
                     (q.options.getD []).map normalizeOption
                   else [] } := by
    simp [validateEntry, h]
  refine ⟨_, hv, ?_, ?_, ?_, ?_, ?_, ?_, ?_⟩
  · intro hd; simp [jsOrStr, hd]
  · intro hm; simp [jsOrNat, hm]
  · intro ht; simp [jsOrNat, ht]
  · intro hc; simp [hc]
  · intro hc; simp [hc]
  · intro s; rfl
  · intro t; rfl

/-- Witness for C7 amended: a TRUE_FALSE entry with all optional fields
absent is submitted with difficulty EASY, marks 1, timeLimit 60 and an
empty options list. -/
theorem C7_amended_witness :
    entryInvalid ⟨some "Q", some "cat1", some "TRUE_FALSE",
      none, none, none, none⟩ = false ∧
    ∃ out : OutQuestion,
      validateEntry 0 ⟨some "Q", some "cat1", some "TRUE_FALSE",
        none, none, none, none⟩ = Except.ok out ∧
      out.difficulty = "EASY" ∧ out.marks = 1 ∧ out.timeLimit = 60 ∧
      out.options = [] := by
  refine ⟨by decide, ?_⟩
  obtain ⟨out, hout, hd, hm, ht, _, hopts, _, _⟩ :=
    C7_amended 0 ⟨some "Q", some "cat1", some "TRUE_FALSE",
      none, none, none, none⟩ (by decide)
  exact ⟨out, hout, hd rfl, hm rfl, ht rfl, hopts (by decide)⟩

end Questions
